import Mathlib

/-!
Verification of the OAuth state-validation and code-exchange core of
`fyers_oauth.py` (Fyers OAuth token retrieval service).

The Python source is shallowly embedded below: dictionaries become
association lists, randomness (uuid4, token_urlsafe), the clock and the
outbound HTTP response become explicit parameters, and the `callback`
route handler becomes a pure function from its inputs and environment to
the rendered page, the pending-state table afterward, the token store
afterward, and the payload POSTed to the provider (if any).
-/

namespace FyersOAuth

/-! ## SHA-256 (as used by `hashlib.sha256(...).hexdigest()` in `callback`)

Words are `Nat` reduced mod 2^32; messages are lists of byte values. -/

/-- Reduce a natural number to a 32-bit word. -/
def w32 (n : Nat) : Nat := n % 4294967296

/-- Right rotation of a 32-bit word by `n` places. -/
def rotr32 (n x : Nat) : Nat := w32 ((x >>> n) ||| (x <<< (32 - n)))

/-- Bitwise complement of a 32-bit word. -/
def bnot32 (x : Nat) : Nat := 4294967295 - x

/-- SHA-256 small sigma 0. -/
def ssig0 (x : Nat) : Nat := (rotr32 7 x) ^^^ (rotr32 18 x) ^^^ (x >>> 3)

/-- SHA-256 small sigma 1. -/
def ssig1 (x : Nat) : Nat := (rotr32 17 x) ^^^ (rotr32 19 x) ^^^ (x >>> 10)

/-- SHA-256 big sigma 0. -/
def bsig0 (x : Nat) : Nat := (rotr32 2 x) ^^^ (rotr32 13 x) ^^^ (rotr32 22 x)

/-- SHA-256 big sigma 1. -/
def bsig1 (x : Nat) : Nat := (rotr32 6 x) ^^^ (rotr32 11 x) ^^^ (rotr32 25 x)

/-- SHA-256 choice function. -/
def chf (e f g : Nat) : Nat := (e &&& f) ^^^ (bnot32 e &&& g)

/-- SHA-256 majority function. -/
def majf (a b c : Nat) : Nat := (a &&& b) ^^^ (a &&& c) ^^^ (b &&& c)

/-- The 64 SHA-256 round constants (decimal values of the standard
fractional-cube-root words). -/
def sha256K : List Nat :=
  [1116352408, 1899447441, 3049323471, 3921009573, 961987163,
   1508970993, 2453635748, 2870763221, 3624381080, 310598401,
   607225278, 1426881987, 1925078388, 2162078206, 2614888103,
   3248222580, 3835390401, 4022224774, 264347078, 604807628,
   770255983, 1249150122, 1555081692, 1996064986, 2554220882,
   2821834349, 2952996808, 3210313671, 3336571891, 3584528711,
   113926993, 338241895, 666307205, 773529912, 1294757372,
   1396182291, 1695183700, 1986661051, 2177026350, 2456956037,
   2730485921, 2820302411, 3259730800, 3345764771, 3516065817,
   3600352804, 4094571909, 275423344, 430227734, 506948616,
   659060556, 883997877, 958139571, 1322822218, 1537002063,
   1747873779, 1955562222, 2024104815, 2227730452, 2361852424,
   2428436474, 2756734187, 3204031479, 3329325298]

/-- The SHA-256 initial hash state (decimal values of the standard
fractional-square-root words). -/
def sha256H0 : List Nat :=
  [1779033703, 3144134277, 1013904242, 2773480762, 1359893119,
   2600822924, 528734635, 1541459225]

/-- `count` bytes of `n` in big-endian order. -/
def beBytes : Nat → Nat → List Nat
  | 0, _ => []
  | k + 1, n => beBytes k (n / 256) ++ [n % 256]

/-- SHA-256 message padding: append 0x80, zeros to 56 mod 64, then the
bit length as 8 big-endian bytes. -/
def sha256pad (msg : List Nat) : List Nat :=
  msg ++ [128] ++ List.replicate ((119 - (msg.length % 64)) % 64) 0 ++ beBytes 8 (8 * msg.length)

/-- Group bytes into big-endian 32-bit words. -/
def bytesToWords : List Nat → List Nat
  | b0 :: b1 :: b2 :: b3 :: rest => (((b0 * 256 + b1) * 256 + b2) * 256 + b3) :: bytesToWords rest
  | _ => []

/-- Split a byte list into 64-byte chunks; the fuel argument (instantiated
with the list length, which bounds the number of chunks) makes the
recursion structural so that it evaluates inside the kernel. -/
def chunks64Fuel : Nat → List Nat → List (List Nat)
  | _, [] => []
  | 0, _ :: _ => []
  | fuel + 1, x :: rest => ((x :: rest).take 64) :: chunks64Fuel fuel ((x :: rest).drop 64)

/-- Split a byte list into 64-byte chunks. -/
def chunks64 (l : List Nat) : List (List Nat) := chunks64Fuel l.length l

/-- Extend the 16-word schedule to 64 words; `acc` holds the words built so
far, most recent first, and the result is in normal order. -/
def schedExtend : Nat → List Nat → List Nat
  | 0, acc => acc.reverse
  | n + 1, acc =>
    schedExtend n
      (w32 (acc.getD 15 0 + ssig0 (acc.getD 14 0) + acc.getD 6 0 + ssig1 (acc.getD 1 0)) :: acc)

/-- One SHA-256 compression round on the state `[a, b, c, d, e, f, g, h]`
with round constant and schedule word `kw`. -/
def compressStep (st : List Nat) (kw : Nat × Nat) : List Nat :=
  match st with
  | [a, b, c, d, e, f, g, h] =>
    let t1 := w32 (h + bsig1 e + chf e f g + kw.1 + kw.2)
    let t2 := w32 (bsig0 a + majf a b c)
    [w32 (t1 + t2), a, b, c, w32 (d + t1), e, f, g]
  | other => other

/-- Process one 64-byte block. -/
def hashBlock (hs : List Nat) (block : List Nat) : List Nat :=
  let ws := schedExtend 48 (bytesToWords block).reverse
  let st := (sha256K.zip ws).foldl compressStep hs
  (hs.zip st).map (fun p => w32 (p.1 + p.2))

/-- The SHA-256 digest of a byte list, as eight 32-bit words. -/
def sha256words (msg : List Nat) : List Nat :=
  (chunks64 (sha256pad msg)).foldl hashBlock sha256H0

/-- A hex digit character (lowercase, as Python hexdigest produces). -/
def hexDigit (n : Nat) : Char := if n < 10 then Char.ofNat (48 + n) else Char.ofNat (87 + n)

/-- The eight hex characters of a 32-bit word. -/
def wordHex (w : Nat) : List Char :=
  [hexDigit ((w >>> 28) % 16), hexDigit ((w >>> 24) % 16), hexDigit ((w >>> 20) % 16),
   hexDigit ((w >>> 16) % 16), hexDigit ((w >>> 12) % 16), hexDigit ((w >>> 8) % 16),
   hexDigit ((w >>> 4) % 16), hexDigit (w % 16)]

/-- `hashlib.sha256(msg).hexdigest()`: the lowercase hex digest string. -/
def sha256hex (msg : List Nat) : String :=
  String.mk ((sha256words msg).map wordHex).flatten

/-- UTF-8 encoding of one character, as byte values. -/
def utf8Char (c : Char) : List Nat :=
  let n := c.toNat
  if n < 128 then [n]
  else if n < 2048 then [192 ||| (n >>> 6), 128 ||| (n &&& 63)]
  else if n < 65536 then
    [224 ||| (n >>> 12), 128 ||| ((n >>> 6) &&& 63), 128 ||| (n &&& 63)]
  else
    [240 ||| (n >>> 18), 128 ||| ((n >>> 12) &&& 63), 128 ||| ((n >>> 6) &&& 63), 128 ||| (n &&& 63)]

/-- Python `s.encode('utf-8')`: the UTF-8 bytes of a string. -/
def utf8Bytes (s : String) : List Nat := (s.data.map utf8Char).flatten

/-- `app_id_hash` as computed in `callback`:
`hashlib.sha256(f"{APP_ID}:{SECRET_KEY}".encode('utf-8')).hexdigest()`. -/
def app_id_hash (appId secretKey : String) : String :=
  sha256hex (utf8Bytes (appId ++ (":") ++ secretKey))

/-! ## Pending-state table (`states = {}` and `generate_state` in the source)

The Python dict keyed by `state_id` strings becomes an association list;
dict keys are unique, so removal drops every binding of a key and
assignment replaces an existing binding. -/

/-- The value stored in `states[state_id]`: the random secret and the
creation time (the clock is an explicit `Nat` parameter here). -/
structure PendingState where
  value : String
  created_at : Nat
deriving DecidableEq

/-- The process-wide `states` dict. -/
abbrev StateTable := List (String × PendingState)

/-- Association-list lookup (dict subscript / `.get`). -/
def alookup {α : Type} : List (String × α) → String → Option α
  | [], _ => none
  | (k, v) :: rest, key => if k = key then some v else alookup rest key

/-- Dict assignment `d[key] = v`: replace an existing binding or append. -/
def ainsert {α : Type} : List (String × α) → String → α → List (String × α)
  | [], key, v => [(key, v)]
  | (k, w) :: rest, key, v =>
    if k = key then (key, v) :: rest else (k, w) :: ainsert rest key v

/-- Dict removal `d.pop(key, None)`: drop every binding of the key
(dict keys are unique, so at most one exists). -/
def aremove {α : Type} : List (String × α) → String → List (String × α)
  | [], _ => []
  | (k, v) :: rest, key =>
    if k = key then aremove rest key else (k, v) :: aremove rest key

/-- `generate_state()` from the source, with the uuid4 identifier, the
`token_urlsafe(32)` secret and the clock passed in as parameters. -/
def generate_state (states : StateTable) (state_id state_value : String) (now : Nat) :
    StateTable × String × String :=
  (ainsert states state_id { value := state_value, created_at := now }, state_id, state_value)

/-! ## State validation inside `callback` (source lines 449-463) -/

/-- The outcome of the state-validation block: `Valid` (lookup hit and the
stored secret matches), `Mismatch` (lookup hit but the secret differs),
`NotFound` (unknown `state_id`), `MalformedInput` (the two-variable
unpacking of `state.split(":", 1)` raised `ValueError`). -/
inductive ValidationResult where
  | Valid
  | Mismatch
  | NotFound
  | MalformedInput
deriving DecidableEq

/-- Helper for `state.split(":", 1)`: scan for the first colon, keeping the
characters seen so far reversed in `acc`. -/
def splitColonAux : List Char → List Char → Option (String × String)
  | [], _ => none
  | c :: rest, acc =>
    if c = ':' then some (String.mk acc.reverse, String.mk rest)
    else splitColonAux rest (c :: acc)

/-- `state_id, state_value = state.split(":", 1)`: `some` of the part before
the first colon and everything after it, `none` when no colon occurs
(the unpacking then raises `ValueError`). -/
def splitStateOnce (s : String) : Option (String × String) := splitColonAux s.data []

/-- The state-validation block of `callback` as one step: split the raw
state string, look the identifier up, compare the stored secret, and pop
the entry only on the success path (the mismatch and not-found branches
`return` before reaching `states.pop`). Returns the outcome and the table
afterward. -/
def consumeState (states : StateTable) (state : String) : ValidationResult × StateTable :=
  match splitStateOnce state with
  | none => (ValidationResult.MalformedInput, states)
  | some (state_id, state_value) =>
    match alookup states state_id with
    | none => (ValidationResult.NotFound, states)
    | some ps =>
      if ps.value = state_value then (ValidationResult.Valid, aremove states state_id)
      else (ValidationResult.Mismatch, states)

/-! ## Token exchange (source lines 474-514 and 553-568) -/

/-- Startup configuration read from the environment: `APP_ID`,
`SECRET_KEY`, `REDIRECT_URI` (all present, or startup fails). -/
structure Config where
  APP_ID : String
  SECRET_KEY : String
  REDIRECT_URI : String
deriving DecidableEq

/-- A JSON object, restricted to the string-valued fields the handler
reads (`s`, `message`, `access_token`, and whatever else the provider
sends). -/
abbrev JsonObj := List (String × String)

/-- The provider's reply to the token POST: HTTP status code and parsed
JSON body. -/
structure ProviderResponse where
  status_code : Nat
  body : JsonObj
deriving DecidableEq

/-- Models `json.dumps(obj, indent=4)`: a deterministic rendering of the
object (exact whitespace of the Python library is not reproduced). -/
def dumpJson (o : JsonObj) : String :=
  ("\x7b") ++
    String.intercalate (", ") (o.map (fun kv => ("\x22") ++ kv.1 ++ ("\x22: \x22") ++ kv.2 ++ ("\x22"))) ++
  ("\x7d")

/-- The token-request payload built in `callback`:
`{'grant_type': 'authorization_code', 'appIdHash': app_id_hash, 'code': actual_code}`. -/
def exchangePayload (cfg : Config) (actual_code : String) : JsonObj :=
  [(("grant_type"), ("authorization_code")),
   (("appIdHash"), app_id_hash cfg.APP_ID cfg.SECRET_KEY),
   (("code"), actual_code)]

/-- How `callback` interprets the provider's reply. -/
inductive ExchangeResult where
  | Success (access_token : String) (body : JsonObj)
  | Rejected (message : String)
  | MalformedResponse
deriving DecidableEq

/-- The response interpretation in `callback`: status 200 and body field
`s` equal to `"ok"` is the success test; on success a missing (or empty,
Python `if not access_token`) `access_token` raises the
no-access-token `ValueError` (`MalformedResponse`); otherwise the
rejection message is `response_data.get('message', 'Authentication
failed. Please try again.')`. -/
def exchangeResult (resp : ProviderResponse) : ExchangeResult :=
  if resp.status_code = 200 ∧ alookup resp.body ("s") = some ("ok") then
    match alookup resp.body ("access_token") with
    | none => ExchangeResult.MalformedResponse
    | some tok =>
      if tok = ("") then ExchangeResult.MalformedResponse
      else ExchangeResult.Success tok resp.body
  else
    ExchangeResult.Rejected ((alookup resp.body ("message")).getD ("Authentication failed. Please try again."))

/-! ## Rendered pages (`get_base_html` and the `callback` page contents)

The HTML is reproduced with the source's static text and placeholder
order; insignificant indentation and line breaks inside the templates are
elided. -/

/-- Python truthiness of an optional string: `None` and `""` are falsy. -/
def truthyOpt : Option String → Bool
  | none => false
  | some s => !(s == "")

/-- Python f-string interpolation of an optional value: `None` renders as
the text `None`. -/
def pyOpt : Option String → String
  | none => ("None")
  | some s => s

/-- `get_base_html(title, content, error, success)` from the source: the
alert blocks are included only when the argument is truthy. -/
def get_base_html (title content : String) (error success : Option String) (year : Nat) : String :=
  let error_html := if truthyOpt error then
      ("<div class=\x22alert alert-error\x22><p>") ++ (error.getD ("")) ++ ("</p></div>")
    else ("")
  let success_html := if truthyOpt success then
      ("<div class=\x22alert alert-success\x22><p>") ++ (success.getD ("")) ++ ("</p></div>")
    else ("")
  ("<!DOCTYPE html><html lang=\x22en\x22><head><meta charset=\x22UTF-8\x22>") ++
  ("<meta name=\x22viewport\x22 content=\x22width=device-width, initial-scale=1.0\x22>") ++
  ("<title>") ++ title ++ (" - Fyers OAuth</title>") ++
  ("<link rel=\x22stylesheet\x22 href=\x22/static/css/styles.css\x22></head><body>") ++
  ("<header><div class=\x22container\x22><div class=\x22logo\x22>Fyers OAuth Integration</div></div></header>") ++
  ("<main><div class=\x22container\x22>") ++ error_html ++ success_html ++ content ++ ("</div></main>") ++
  ("<footer><div class=\x22container\x22><p>&copy; ") ++ (toString year) ++ (" Fyers OAuth Integration</p></div></footer>") ++
  ("<script src=\x22/static/js/scripts.js\x22></script></body></html>")

/-- Content of the provider-error page (`if error:` branch). -/
def providerErrorContent (error : String) (error_description : Option String) : String :=
  ("<div class=\x22card\x22><h2 class=\x22card-title\x22>Authentication Error</h2>") ++
  ("<p>Fyers returned an error:</p><pre>") ++ error ++ (": ") ++ pyOpt error_description ++
  ("</pre><a href=\x22/\x22 class=\x22btn\x22>Try Again</a></div>")

/-- Content of the missing-state page. -/
def missingStateContent : String :=
  ("<div class=\x27card\x27><h2 class=\x27card-title\x27>Error</h2><p>Missing state parameter</p>") ++
  ("<a href=\x27/\x27 class=\x27btn\x27>Try Again</a></div>")

/-- Content of the invalid-state page (unknown id or secret mismatch). -/
def securityErrorContent : String :=
  ("<div class=\x27card\x27><h2 class=\x27card-title\x27>Security Error</h2>") ++
  ("<p>Invalid state parameter. This could be a CSRF attempt.</p>") ++
  ("<a href=\x27/\x27 class=\x27btn\x27>Try Again</a></div>")

/-- Content of the invalid-state-format page (the `split` unpacking raised). -/
def invalidFormatContent : String :=
  ("<div class=\x27card\x27><h2 class=\x27card-title\x27>Error</h2><p>Invalid state format</p>") ++
  ("<a href=\x27/\x27 class=\x27btn\x27>Try Again</a></div>")

/-- Content of the missing-authorization-code page. -/
def missingCodeContent : String :=
  ("<div class=\x27card\x27><h2 class=\x27card-title\x27>Error</h2><p>Missing authorization code</p>") ++
  ("<a href=\x27/\x27 class=\x27btn\x27>Try Again</a></div>")

/-- Content of the success page, showing the access token, the full
response details and the path the token was saved to. -/
def successContent (access_token : String) (body : JsonObj) (token_path : String) : String :=
  ("<div class=\x22card\x22><h2 class=\x22card-title\x22>Authentication Successful</h2>") ++
  ("<p>Your access token has been retrieved and saved successfully!</p>") ++
  ("<div class=\x22token-info\x22><h3>Access Token</h3><pre id=\x22access-token\x22>") ++ access_token ++
  ("</pre><button class=\x22btn copy-btn\x22 data-target=\x22access-token\x22>Copy Token</button></div>") ++
  ("<div class=\x22token-info\x22><h3>Token Details</h3>") ++
  ("<button class=\x22btn toggle-btn\x22 data-target=\x22token-details\x22>Show Details</button>") ++
  ("<pre id=\x22token-details\x22 class=\x22hidden\x22>") ++ dumpJson body ++ ("</pre>") ++
  ("<button class=\x22btn copy-btn hidden\x22 data-target=\x22token-details\x22>Copy Details</button></div>") ++
  ("<div style=\x22margin-top: 2rem;\x22><p>Token has been saved to: <code>") ++ token_path ++
  ("</code></p><a href=\x22/\x22 class=\x22btn\x22>Back to Home</a></div></div>")

/-- Content of the API-error page (provider rejected the code). -/
def apiErrorContent (error_message : String) (body : JsonObj) : String :=
  ("<div class=\x22card\x22><h2 class=\x22card-title\x22>API Error</h2>") ++
  ("<p>Failed to retrieve access token:</p><pre>") ++ error_message ++ ("</pre>") ++
  ("<div><h3>Response Details:</h3><pre>") ++ dumpJson body ++ ("</pre></div>") ++
  ("<a href=\x22/\x22 class=\x22btn\x22>Try Again</a></div>")

/-- The page rendered by the outer `except Exception` block of the
exchange section, with `str(e)` interpolated. -/
def genericErrorPage (e : String) (year : Nat) : String :=
  get_base_html ("Error")
    (("<div class=\x22card\x22><h2 class=\x22card-title\x22>Error</h2>") ++
     ("<p>An error occurred while processing your authentication:</p><pre>") ++ e ++
     ("</pre><a href=\x22/\x22 class=\x22btn\x22>Try Again</a></div>"))
    (some ("Failed to generate access token")) none year

/-! ## The `callback` route handler -/

/-- The query parameters of `/fyers/callback`; FastAPI defaults each to
`None`. -/
structure CallbackInput where
  code : Option String
  auth_code : Option String
  state : Option String
  error : Option String
  error_description : Option String
deriving DecidableEq

/-- Persisted token storage: the `data/tokens` directory as a map from
file name to the JSON body written there (`open(path, "w")` truncates, so
writing an existing name replaces its content). -/
abbrev TokenStore := List (String × JsonObj)

/-- The file name `f"token_{timestamp}.json"` derived from
`datetime.now().strftime("%Y%m%d_%H%M%S")`. -/
def tokenFilename (timestamp : String) : String := ("token_") ++ timestamp ++ (".json")

/-- The environment one `callback` invocation runs in: the provider's
reply should the exchange POST be made, whether the token-file write
raises (`some` of `str(e)`), the timestamp string, and the clock year
used by the page footer. -/
structure CallbackEnv where
  response : ProviderResponse
  persistError : Option String
  timestamp : String
  year : Nat
deriving DecidableEq

/-- What one `callback` invocation produces: the rendered HTML, the
pending-state table afterward, the token store afterward, and the JSON
body POSTed to the token endpoint (`none` when no exchange call was
made). -/
structure CallbackResult where
  html : String
  states : StateTable
  tokenStore : TokenStore
  exchangePost : Option JsonObj
deriving DecidableEq

/-- `actual_code = auth_code if auth_code else code`, with Python
truthiness; the empty string stands for a missing code. -/
def actualCode (auth_code code : Option String) : String :=
  if truthyOpt auth_code then auth_code.getD ("") else code.getD ("")

/-- The `/fyers/callback` handler, with randomness, clock, provider reply
and file-system outcome passed in through `env`. -/
def callback (cfg : Config) (inp : CallbackInput) (states : StateTable)
    (store : TokenStore) (env : CallbackEnv) : CallbackResult :=
  if truthyOpt inp.error then
    { html := get_base_html ("Authentication Error")
        (providerErrorContent (inp.error.getD ("")) inp.error_description)
        (some (("Fyers error: ") ++ inp.error.getD (""))) none env.year,
      states := states, tokenStore := store, exchangePost := none }
  else if !(truthyOpt inp.state) then
    { html := get_base_html ("Error") missingStateContent
        (some ("Missing state parameter")) none env.year,
      states := states, tokenStore := store, exchangePost := none }
  else
    match consumeState states (inp.state.getD ("")) with
    | (ValidationResult.MalformedInput, t2) =>
      { html := get_base_html ("Error") invalidFormatContent
          (some ("Invalid state format")) none env.year,
        states := t2, tokenStore := store, exchangePost := none }
    | (ValidationResult.NotFound, t2) =>
      { html := get_base_html ("Error") securityErrorContent
          (some ("Security validation failed")) none env.year,
        states := t2, tokenStore := store, exchangePost := none }
    | (ValidationResult.Mismatch, t2) =>
      { html := get_base_html ("Error") securityErrorContent
          (some ("Security validation failed")) none env.year,
        states := t2, tokenStore := store, exchangePost := none }
    | (ValidationResult.Valid, t2) =>
      let actual_code := actualCode inp.auth_code inp.code
      if actual_code = ("") then
        { html := get_base_html ("Error") missingCodeContent
            (some ("Missing authorization code")) none env.year,
          states := t2, tokenStore := store, exchangePost := none }
      else
        let payload := exchangePayload cfg actual_code
        let resp := env.response
        match exchangeResult resp with
        | ExchangeResult.Success access_token body =>
          let token_filename := tokenFilename env.timestamp
          match env.persistError with
          | some e =>
            { html := genericErrorPage e env.year,
              states := t2, tokenStore := store, exchangePost := some payload }
          | none =>
            { html := get_base_html ("Authentication Successful")
                (successContent access_token body (("data/tokens/") ++ token_filename))
                none (some ("Authentication successful!")) env.year,
              states := t2, tokenStore := ainsert store token_filename body,
              exchangePost := some payload }
        | ExchangeResult.Rejected error_message =>
          { html := get_base_html ("API Error") (apiErrorContent error_message resp.body)
              (some (("API error: ") ++ error_message)) none env.year,
            states := t2, tokenStore := store, exchangePost := some payload }
        | ExchangeResult.MalformedResponse =>
          { html := genericErrorPage ("Authentication succeeded but no access token was returned") env.year,
            states := t2, tokenStore := store, exchangePost := some payload }

/-! ## Supporting lemmas -/

/-- Whether a string contains no colon. The composite state is
`f"{state_id}:{state_value}"` with `state_id` a uuid4 string, which never
contains a colon, so `split(":", 1)` recovers the identifier exactly. -/
def noColon (s : String) : Bool := s.data.all (fun c => !(c == ':'))

lemma alookup_aremove_self {α : Type} (t : List (String × α)) (k : String) :
    alookup (aremove t k) k = none := by
  induction t with
  | nil => rfl
  | cons kv rest ih =>
    obtain ⟨k1, v1⟩ := kv
    by_cases h : k1 = k
    · simpa [aremove, h] using ih
    · simpa [aremove, alookup, h] using ih

lemma alookup_aremove_other {α : Type} (t : List (String × α)) (k k2 : String)
    (hne : k2 ≠ k) : alookup (aremove t k) k2 = alookup t k2 := by
  have hkk2 : ¬ (k = k2) := fun hk => hne hk.symm
  induction t with
  | nil => rfl
  | cons kv rest ih =>
    obtain ⟨k1, v1⟩ := kv
    by_cases h : k1 = k
    · subst h
      simp [aremove, alookup, hkk2, ih]
    · by_cases h2 : k1 = k2
      · simp [aremove, alookup, h, h2, hne]
      · simp [aremove, alookup, h, h2, ih]

lemma alookup_ainsert_self {α : Type} (t : List (String × α)) (k : String) (v : α) :
    alookup (ainsert t k v) k = some v := by
  induction t with
  | nil => simp [ainsert, alookup]
  | cons kv rest ih =>
    obtain ⟨k1, v1⟩ := kv
    by_cases h : k1 = k
    · simp [ainsert, alookup, h]
    · simp [ainsert, alookup, h, ih]

lemma alookup_ainsert_other {α : Type} (t : List (String × α)) (k k2 : String) (v : α)
    (hne : k2 ≠ k) : alookup (ainsert t k v) k2 = alookup t k2 := by
  have hkk2 : ¬ (k = k2) := fun hk => hne hk.symm
  induction t with
  | nil => simp [ainsert, alookup, hkk2]
  | cons kv rest ih =>
    obtain ⟨k1, v1⟩ := kv
    by_cases h : k1 = k
    · subst h
      simp [ainsert, alookup, hkk2]
    · by_cases h2 : k1 = k2
      · simp [ainsert, alookup, h, h2, hne]
      · simp [ainsert, alookup, h, h2, ih]

lemma splitColonAux_append (l : List Char) (sv : List Char) (acc : List Char)
    (h : ∀ c ∈ l, c ≠ ':') :
    splitColonAux (l ++ ':' :: sv) acc = some (String.mk (acc.reverse ++ l), String.mk sv) := by
  induction l generalizing acc with
  | nil => simp [splitColonAux]
  | cons c cs ih =>
    have hc : c ≠ ':' := h c (List.mem_cons_self c cs)
    have hcs : ∀ x ∈ cs, x ≠ ':' := fun x hx => h x (List.mem_cons_of_mem c hx)
    simp only [List.cons_append, splitColonAux, if_neg hc, List.append_eq]
    rw [ih (c :: acc) hcs]
    simp

lemma splitStateOnce_append (sid sv : String) (h : noColon sid = true) :
    splitStateOnce (sid ++ (":") ++ sv) = some (sid, sv) := by
  have h2 : ∀ c ∈ sid.data, c ≠ ':' := by
    intro c hc
    have := (List.all_eq_true.mp h) c hc
    simpa using this
  have hd : (sid ++ (":") ++ sv).data = sid.data ++ ':' :: sv.data := by
    simp [String.data_append]
  unfold splitStateOnce
  rw [hd, splitColonAux_append sid.data sv.data [] h2]
  simp

lemma consumeState_correct (states : StateTable) (sid : String) (ps : PendingState)
    (hl : alookup states sid = some ps) (hnc : noColon sid = true) :
    consumeState states (sid ++ (":") ++ ps.value) = (ValidationResult.Valid, aremove states sid) := by
  unfold consumeState
  rw [splitStateOnce_append sid ps.value hnc]
  simp [hl]

lemma consumeState_mismatch (states : StateTable) (sid sv : String) (ps : PendingState)
    (hl : alookup states sid = some ps) (hnc : noColon sid = true)
    (hne : ps.value ≠ sv) :
    consumeState states (sid ++ (":") ++ sv) = (ValidationResult.Mismatch, states) := by
  unfold consumeState
  rw [splitStateOnce_append sid sv hnc]
  simp [hl, hne]

lemma consumeState_notfound (states : StateTable) (sid sv : String)
    (hl : alookup states sid = none) (hnc : noColon sid = true) :
    consumeState states (sid ++ (":") ++ sv) = (ValidationResult.NotFound, states) := by
  unfold consumeState
  rw [splitStateOnce_append sid sv hnc]
  simp [hl]

lemma tokenFilename_inj (ts1 ts2 : String) (h : tokenFilename ts1 = tokenFilename ts2) :
    ts1 = ts2 := by
  have hd := congrArg String.data h
  simp only [tokenFilename, String.data_append, List.append_assoc] at hd
  have h1 := List.append_cancel_left hd
  have h2 := List.append_cancel_right h1
  exact String.ext h2

/-- Whether `needle` is a character-wise prefix of `hay`. -/
def strStarts : List Char → List Char → Bool
  | _, [] => true
  | [], _ :: _ => false
  | a :: as, b :: bs => (a == b) && strStarts as bs

/-- Scan `hay` for an occurrence of `needle`. -/
def strContainsAux : List Char → List Char → Bool
  | [], needle => needle.isEmpty
  | c :: rest, needle => strStarts (c :: rest) needle || strContainsAux rest needle

/-- Whether `needle` occurs as a substring of `hay`. -/
def strContains (hay needle : String) : Bool := strContainsAux hay.data needle.data

set_option maxRecDepth 1000000 in
/-- Sanity check of the SHA-256 embedding against the standard test
vector for the message `abc`. -/
theorem sha256hex_abc :
    sha256hex (utf8Bytes (("abc"))) =
      ("ba7816bf8f01cfea414140de5dae2223b00361a396177a9cb410ff61f20015ad") := by
  decide

/-! ## Concrete sample data for witnesses and counterexamples -/

/-- A sample configuration. -/
def exCfg : Config :=
  { APP_ID := ("APPID"), SECRET_KEY := ("SK"), REDIRECT_URI := ("http://localhost/fyers/callback") }

/-- A pending secret stored under `sid`. -/
def exPs : PendingState := { value := ("SECRET"), created_at := 0 }

/-- A second pending secret stored under `sid2`. -/
def exPs2 : PendingState := { value := ("SECRET2"), created_at := 0 }

/-- A table with one pending login. -/
def exStates : StateTable := [(("sid"), exPs)]

/-- A table with two pending logins. -/
def exStates2 : StateTable := [(("sid"), exPs), (("sid2"), exPs2)]

/-- A successful provider body carrying `TOK1`. -/
def exOkBody : JsonObj := [(("s"), ("ok")), (("access_token"), ("TOK1"))]

/-- A second successful provider body carrying `TOK2`. -/
def exOkBody2 : JsonObj := [(("s"), ("ok")), (("access_token"), ("TOK2"))]

/-- A provider rejection body (HTTP 200 with `s = "error"`). -/
def exRejResp : ProviderResponse :=
  { status_code := 200, body := [(("s"), ("error")), (("message"), ("invalid code"))] }

/-- A malformed success body: `s = "ok"` but no `access_token`. -/
def exMalResp : ProviderResponse := { status_code := 200, body := [(("s"), ("ok"))] }

/-- A benign environment: success response, persistence succeeds. -/
def exEnvOk : CallbackEnv :=
  { response := { status_code := 200, body := exOkBody }, persistError := none,
    timestamp := ("20250101_000000"), year := 2025 }

/-- Environment for a second exchange in the same second, returning `TOK2`. -/
def exEnvOk2 : CallbackEnv :=
  { response := { status_code := 200, body := exOkBody2 }, persistError := none,
    timestamp := ("20250101_000000"), year := 2025 }

/-- Environment where writing the token file raises. -/
def exEnvPersistFail : CallbackEnv :=
  { response := { status_code := 200, body := exOkBody }, persistError := some ("disk full"),
    timestamp := ("20250101_000000"), year := 2025 }

/-- A callback presenting the correct composite state for `sid`. -/
def exInpOk : CallbackInput :=
  { code := some ("AUTH1"), auth_code := none, state := some ("sid:SECRET"),
    error := none, error_description := none }

/-- A callback presenting the correct composite state for `sid2`. -/
def exInpOk2 : CallbackInput :=
  { code := some ("AUTH2"), auth_code := none, state := some ("sid2:SECRET2"),
    error := none, error_description := none }

/-- A callback presenting a tampered secret for `sid`. -/
def exInpMismatch : CallbackInput :=
  { code := some ("AUTH1"), auth_code := none, state := some ("sid:WRONG"),
    error := none, error_description := none }

/-- A callback whose state string has no colon. -/
def exInpMalformed : CallbackInput :=
  { code := some ("AUTH1"), auth_code := none, state := some ("sidWRONG"),
    error := none, error_description := none }

/-- A callback whose state names an unknown identifier. -/
def exInpUnknown : CallbackInput :=
  { code := some ("AUTH1"), auth_code := none, state := some ("nosuch:SECRET"),
    error := none, error_description := none }

/-- A callback carrying a provider-supplied error. -/
def exInpProviderError : CallbackInput :=
  { code := none, auth_code := none, state := some ("sid:SECRET"),
    error := some ("access_denied"), error_description := some ("user denied") }

/-! ## Claims -/

/-- C1 counterexample: after a Consume that returns `Mismatch`, the entry
is NOT removed — a second Consume with the same `state_id` returns
`Mismatch` again, not `NotFound`, because the mismatch branch of
`callback` returns before `states.pop` runs. -/
theorem c1_counterexample :
    (consumeState exStates (("sid:WRONG"))).1 = ValidationResult.Mismatch ∧
    (consumeState (consumeState exStates (("sid:WRONG"))).2 (("sid:WRONG"))).1 ≠
      ValidationResult.NotFound := by
  decide

/-- C1 (amended): a Consume that returns `Mismatch` leaves the table
unchanged — the entry is removed only when the supplied secret matches —
so the same state remains consumable, and a later Consume with the
correct secret still returns `Valid`. -/
theorem c1_theorem (states : StateTable) (sid sv : String) (ps : PendingState)
    (hl : alookup states sid = some ps) (hnc : noColon sid = true)
    (hne : ps.value ≠ sv) :
    (consumeState states (sid ++ (":") ++ sv)).1 = ValidationResult.Mismatch ∧
    (consumeState states (sid ++ (":") ++ sv)).2 = states ∧
    (consumeState states (sid ++ (":") ++ ps.value)).1 = ValidationResult.Valid := by
  refine ⟨?_, ?_, ?_⟩
  · rw [consumeState_mismatch states sid sv ps hl hnc hne]
  · rw [consumeState_mismatch states sid sv ps hl hnc hne]
  · rw [consumeState_correct states sid ps hl hnc]

/-- C1 witness: the amended claim at the sample table. -/
theorem c1_witness :
    (alookup exStates (("sid")) = some exPs ∧ noColon (("sid")) = true ∧
      exPs.value ≠ ("WRONG")) ∧
    ((consumeState exStates (("sid") ++ (":") ++ ("WRONG"))).1 = ValidationResult.Mismatch ∧
     (consumeState exStates (("sid") ++ (":") ++ ("WRONG"))).2 = exStates ∧
     (consumeState exStates (("sid") ++ (":") ++ exPs.value)).1 = ValidationResult.Valid) :=
  ⟨⟨by decide, by decide, by decide⟩,
   c1_theorem exStates (("sid")) (("WRONG")) exPs (by decide) (by decide) (by decide)⟩

/-- C2: a Consume with the correct `(state_id, secret_value)` pair returns
`Valid` and removes the entry, so a second Consume with the same pair
returns `NotFound`. -/
theorem c2_theorem (states : StateTable) (sid : String) (ps : PendingState)
    (hl : alookup states sid = some ps) (hnc : noColon sid = true) :
    (consumeState states (sid ++ (":") ++ ps.value)).1 = ValidationResult.Valid ∧
    (consumeState (consumeState states (sid ++ (":") ++ ps.value)).2
        (sid ++ (":") ++ ps.value)).1 = ValidationResult.NotFound := by
  have h1 := consumeState_correct states sid ps hl hnc
  refine ⟨by rw [h1], ?_⟩
  rw [h1]
  exact congrArg Prod.fst
    (consumeState_notfound (aremove states sid) sid ps.value (alookup_aremove_self states sid) hnc)

/-- C2 witness: the claim at the sample table. -/
theorem c2_witness :
    (alookup exStates (("sid")) = some exPs ∧ noColon (("sid")) = true) ∧
    ((consumeState exStates (("sid") ++ (":") ++ exPs.value)).1 = ValidationResult.Valid ∧
     (consumeState (consumeState exStates (("sid") ++ (":") ++ exPs.value)).2
        (("sid") ++ (":") ++ exPs.value)).1 = ValidationResult.NotFound) :=
  ⟨⟨by decide, by decide⟩, c2_theorem exStates (("sid")) exPs (by decide) (by decide)⟩

/-- C5: whenever the provider reply has HTTP status other than 200 or a
body status other than `"ok"`, the exchange is interpreted as `Rejected`
carrying the body's `message` field when present and the generic
fallback text otherwise. -/
theorem c5_theorem (resp : ProviderResponse)
    (h : resp.status_code ≠ 200 ∨ alookup resp.body (("s")) ≠ some (("ok"))) :
    exchangeResult resp =
      ExchangeResult.Rejected
        ((alookup resp.body (("message"))).getD (("Authentication failed. Please try again."))) := by
  have hn : ¬ (resp.status_code = 200 ∧ alookup resp.body (("s")) = some (("ok"))) := by
    rcases h with h | h
    · exact fun hc => h hc.1
    · exact fun hc => h hc.2
  unfold exchangeResult
  rw [if_neg hn]

/-- C5 witness: the spec's provider-rejects-code scenario, HTTP 200 with
`{"s": "error", "message": "invalid code"}`. -/
theorem c5_witness :
    (exRejResp.status_code ≠ 200 ∨ alookup exRejResp.body (("s")) ≠ some (("ok"))) ∧
    exchangeResult exRejResp =
      ExchangeResult.Rejected
        ((alookup exRejResp.body (("message"))).getD (("Authentication failed. Please try again."))) :=
  ⟨by decide, c5_theorem exRejResp (by decide)⟩

/-- C6: an HTTP 200 reply whose body has status `"ok"` but no
`access_token` field is interpreted as `MalformedResponse`, which is a
different outcome from every `Rejected` and every `Success`. -/
theorem c6_theorem (resp : ProviderResponse)
    (h1 : resp.status_code = 200) (h2 : alookup resp.body (("s")) = some (("ok")))
    (h3 : alookup resp.body (("access_token")) = none) :
    exchangeResult resp = ExchangeResult.MalformedResponse ∧
    (∀ m, exchangeResult resp ≠ ExchangeResult.Rejected m) ∧
    (∀ tok body, exchangeResult resp ≠ ExchangeResult.Success tok body) := by
  have he : exchangeResult resp = ExchangeResult.MalformedResponse := by
    unfold exchangeResult
    rw [if_pos ⟨h1, h2⟩, h3]
  refine ⟨he, fun m => ?_, fun tok body => ?_⟩
  · rw [he]; intro hc; exact ExchangeResult.noConfusion hc
  · rw [he]; intro hc; exact ExchangeResult.noConfusion hc

/-- C6 witness: the spec's malformed-success scenario, `{"s": "ok"}` with
no access token. -/
theorem c6_witness :
    (exMalResp.status_code = 200 ∧ alookup exMalResp.body (("s")) = some (("ok")) ∧
      alookup exMalResp.body (("access_token")) = none) ∧
    (exchangeResult exMalResp = ExchangeResult.MalformedResponse ∧
     (∀ m, exchangeResult exMalResp ≠ ExchangeResult.Rejected m) ∧
     (∀ tok body, exchangeResult exMalResp ≠ ExchangeResult.Success tok body)) :=
  ⟨⟨by decide, by decide, by decide⟩, c6_theorem exMalResp (by decide) (by decide) (by decide)⟩

/-- C7: the `appIdHash` field of the exchange payload is exactly the
hex-encoded SHA-256 digest of the UTF-8 encoding of
`"{client_id}:{client_secret}"`, and the computation is deterministic:
equal configurations yield identical checksum strings. -/
theorem c7_theorem (cfg cfg2 : Config) (actual_code : String) (h : cfg = cfg2) :
    alookup (exchangePayload cfg actual_code) (("appIdHash")) =
      some (sha256hex (utf8Bytes (cfg.APP_ID ++ (":") ++ cfg.SECRET_KEY))) ∧
    app_id_hash cfg.APP_ID cfg.SECRET_KEY = app_id_hash cfg2.APP_ID cfg2.SECRET_KEY := by
  subst h
  constructor
  · have h1 : ((("grant_type")) : String) ≠ (("appIdHash")) := by decide
    simp [exchangePayload, alookup, app_id_hash, h1]
  · rfl

/-- C7 witness: the claim at the sample configuration. -/
theorem c7_witness :
    (exCfg = exCfg) ∧
    (alookup (exchangePayload exCfg (("AUTH1"))) (("appIdHash")) =
      some (sha256hex (utf8Bytes (exCfg.APP_ID ++ (":") ++ exCfg.SECRET_KEY))) ∧
     app_id_hash exCfg.APP_ID exCfg.SECRET_KEY = app_id_hash exCfg.APP_ID exCfg.SECRET_KEY) :=
  ⟨rfl, c7_theorem exCfg exCfg (("AUTH1")) rfl⟩

set_option maxRecDepth 1000000 in
/-- C3 counterexample: a secret-mismatch callback and a malformed-state
callback render different pages ("Security validation failed" versus
"Invalid state format"), so the failure causes are distinguishable from
the user-facing output. -/
theorem c3_counterexample :
    (callback exCfg exInpMismatch exStates (([])) exEnvOk).html ≠
      (callback exCfg exInpMalformed exStates (([])) exEnvOk).html := by
  decide

/-- C3 (amended): the unknown-state (`NotFound`) and secret-mismatch
(`Mismatch`) failures do render the identical generic
security-validation page, but the malformed-state failure renders a
distinct "Invalid state format" page. -/
theorem c3_theorem (cfg : Config) (inp1 inp2 : CallbackInput)
    (states1 states2 : StateTable) (store1 store2 : TokenStore) (env : CallbackEnv)
    (he1 : truthyOpt inp1.error = false) (he2 : truthyOpt inp2.error = false)
    (hs1 : truthyOpt inp1.state = true) (hs2 : truthyOpt inp2.state = true)
    (hv1 : (consumeState states1 (inp1.state.getD (""))).1 = ValidationResult.NotFound)
    (hv2 : (consumeState states2 (inp2.state.getD (""))).1 = ValidationResult.Mismatch) :
    (callback cfg inp1 states1 store1 env).html =
      (callback cfg inp2 states2 store2 env).html := by
  rcases hc1 : consumeState states1 (inp1.state.getD ("")) with ⟨v1, t1⟩
  rcases hc2 : consumeState states2 (inp2.state.getD ("")) with ⟨v2, t2⟩
  rw [hc1] at hv1
  rw [hc2] at hv2
  simp only [] at hv1 hv2
  subst hv1
  subst hv2
  simp [callback, he1, he2, hs1, hs2, hc1, hc2]

/-- C3 witness: the amended claim at sample unknown-state and
mismatched-secret callbacks. -/
theorem c3_witness :
    (truthyOpt exInpUnknown.error = false ∧ truthyOpt exInpMismatch.error = false ∧
     truthyOpt exInpUnknown.state = true ∧ truthyOpt exInpMismatch.state = true ∧
     (consumeState exStates (exInpUnknown.state.getD (""))).1 = ValidationResult.NotFound ∧
     (consumeState exStates (exInpMismatch.state.getD (""))).1 = ValidationResult.Mismatch) ∧
    (callback exCfg exInpUnknown exStates (([])) exEnvOk).html =
      (callback exCfg exInpMismatch exStates (([])) exEnvOk).html :=
  ⟨⟨by decide, by decide, by decide, by decide, by decide, by decide⟩,
   c3_theorem exCfg exInpUnknown exInpMismatch exStates exStates (([])) (([])) exEnvOk
     (by decide) (by decide) (by decide) (by decide) (by decide) (by decide)⟩

/-- C8: whenever the state-validation block does not come out `Valid`, the
handler never POSTs to the token endpoint. -/
theorem c8_theorem (cfg : Config) (inp : CallbackInput) (states : StateTable)
    (store : TokenStore) (env : CallbackEnv)
    (h : (consumeState states (inp.state.getD (""))).1 ≠ ValidationResult.Valid) :
    (callback cfg inp states store env).exchangePost = none := by
  by_cases he : truthyOpt inp.error = true
  · simp [callback, he]
  · have he2 : truthyOpt inp.error = false := by
      simpa using he
    by_cases hs : truthyOpt inp.state = true
    · rcases hcs : consumeState states (inp.state.getD ("")) with ⟨v, t2⟩
      rw [hcs] at h
      simp only [] at h
      cases v
      · exact absurd rfl h
      · simp [callback, he2, hs, hcs]
      · simp [callback, he2, hs, hcs]
      · simp [callback, he2, hs, hcs]
    · have hs2 : truthyOpt inp.state = false := by
        simpa using hs
      simp [callback, he2, hs2]

/-- C8 witness: the spec's tampered-state scenario — a mismatching secret
means no exchange call is made. -/
theorem c8_witness :
    ((consumeState exStates (exInpMismatch.state.getD (""))).1 ≠ ValidationResult.Valid) ∧
    (callback exCfg exInpMismatch exStates (([])) exEnvOk).exchangePost = none :=
  ⟨by decide, c8_theorem exCfg exInpMismatch exStates (([])) exEnvOk (by decide)⟩

/-- C10: a callback carrying a provider-supplied error returns before any
state validation or consumption: the pending-state table is unchanged,
no exchange is attempted, and any state issued for that login attempt
remains consumable by a later callback. -/
theorem c10_theorem (cfg : Config) (inp : CallbackInput) (states : StateTable)
    (store : TokenStore) (env : CallbackEnv)
    (h : truthyOpt inp.error = true) :
    (callback cfg inp states store env).states = states ∧
    (callback cfg inp states store env).exchangePost = none ∧
    (∀ sid ps, alookup states sid = some ps → noColon sid = true →
      (consumeState (callback cfg inp states store env).states
          (sid ++ (":") ++ ps.value)).1 = ValidationResult.Valid) := by
  have hst : (callback cfg inp states store env).states = states := by
    simp [callback, h]
  refine ⟨hst, by simp [callback, h], ?_⟩
  intro sid ps hl hnc
  rw [hst, consumeState_correct states sid ps hl hnc]

/-- C10 witness: a provider `access_denied` callback leaves the sample
table intact and its state consumable. -/
theorem c10_witness :
    (truthyOpt exInpProviderError.error = true) ∧
    ((callback exCfg exInpProviderError exStates (([])) exEnvOk).states = exStates ∧
     (callback exCfg exInpProviderError exStates (([])) exEnvOk).exchangePost = none ∧
     (∀ sid ps, alookup exStates sid = some ps → noColon sid = true →
       (consumeState (callback exCfg exInpProviderError exStates (([])) exEnvOk).states
           (sid ++ (":") ++ ps.value)).1 = ValidationResult.Valid)) :=
  ⟨by decide, c10_theorem exCfg exInpProviderError exStates (([])) exEnvOk (by decide)⟩

set_option maxRecDepth 1000000 in
/-- Contrast for C4: when persistence succeeds, the rendered success page
does contain the access token. -/
theorem persist_ok_shows_token :
    strContains (callback exCfg exInpOk exStates (([])) exEnvOk).html (("TOK1")) = true := by
  decide

set_option maxRecDepth 1000000 in
/-- C4 counterexample: a fully successful exchange whose token-file write
raises renders the generic failure page — the access token `TOK1` does
not appear anywhere in the response shown to the user. -/
theorem c4_counterexample :
    strContains (callback exCfg exInpOk exStates (([])) exEnvPersistFail).html (("TOK1")) = false := by
  decide

/-- C4 (amended): when the provider exchange succeeds but writing the
token record raises, the exception is caught by the handler's generic
`except` block: the user sees the generic failure page (which does not
display the token) and the token store is left unchanged. -/
theorem c4_theorem (cfg : Config) (inp : CallbackInput) (states t2 : StateTable)
    (store : TokenStore) (env : CallbackEnv) (msg tok : String) (body : JsonObj)
    (he : truthyOpt inp.error = false) (hs : truthyOpt inp.state = true)
    (hv : consumeState states (inp.state.getD ("")) = (ValidationResult.Valid, t2))
    (hac : actualCode inp.auth_code inp.code ≠ (""))
    (hx : exchangeResult env.response = ExchangeResult.Success tok body)
    (hp : env.persistError = some msg) :
    (callback cfg inp states store env).html = genericErrorPage msg env.year ∧
    (callback cfg inp states store env).tokenStore = store := by
  simp [callback, he, hs, hv, hac, hx, hp]

/-- C4 witness: the amended claim at the concrete persist-failure run. -/
theorem c4_witness :
    (truthyOpt exInpOk.error = false ∧ truthyOpt exInpOk.state = true ∧
     consumeState exStates (exInpOk.state.getD ("")) = (ValidationResult.Valid, (([]))) ∧
     actualCode exInpOk.auth_code exInpOk.code ≠ ("") ∧
     exchangeResult exEnvPersistFail.response = ExchangeResult.Success (("TOK1")) exOkBody ∧
     exEnvPersistFail.persistError = some (("disk full"))) ∧
    ((callback exCfg exInpOk exStates (([])) exEnvPersistFail).html =
      genericErrorPage (("disk full")) exEnvPersistFail.year ∧
     (callback exCfg exInpOk exStates (([])) exEnvPersistFail).tokenStore = (([]))) :=
  ⟨⟨by decide, by decide, by decide, by decide, by decide, by decide⟩,
   c4_theorem exCfg exInpOk exStates (([])) (([])) exEnvPersistFail (("disk full")) (("TOK1"))
     exOkBody (by decide) (by decide) (by decide) (by decide) (by decide) (by decide)⟩

set_option maxRecDepth 1000000 in
/-- C9 counterexample: two successful exchanges within the same
second-granularity timestamp write to the same key, and the second
overwrites the first — the record holding `TOK1` is gone afterward,
replaced by the `TOK2` record. -/
theorem c9_counterexample :
    alookup (callback exCfg exInpOk2
        (callback exCfg exInpOk exStates2 (([])) exEnvOk).states
        (callback exCfg exInpOk exStates2 (([])) exEnvOk).tokenStore exEnvOk2).tokenStore
      (tokenFilename (("20250101_000000"))) = some exOkBody2 ∧
    alookup (callback exCfg exInpOk2
        (callback exCfg exInpOk exStates2 (([])) exEnvOk).states
        (callback exCfg exInpOk exStates2 (([])) exEnvOk).tokenStore exEnvOk2).tokenStore
      (tokenFilename (("20250101_000000"))) ≠ some exOkBody := by
  constructor
  · decide
  · decide

/-- C9 (amended): each successful exchange writes one record under the
key `token_{timestamp}.json`; a later successful exchange with a
different timestamp adds a fresh record and leaves the earlier record
intact, but two successful exchanges sharing the same second-granularity
timestamp share a key and the later write replaces the earlier record. -/
theorem c9_theorem (cfg : Config) (inp1 inp2 : CallbackInput) (states1 t1 t2x : StateTable)
    (store : TokenStore) (env1 env2 : CallbackEnv)
    (tok1 tok2 : String) (body1 body2 : JsonObj)
    (he1 : truthyOpt inp1.error = false) (hs1 : truthyOpt inp1.state = true)
    (hv1 : consumeState states1 (inp1.state.getD ("")) = (ValidationResult.Valid, t1))
    (hac1 : actualCode inp1.auth_code inp1.code ≠ (""))
    (hx1 : exchangeResult env1.response = ExchangeResult.Success tok1 body1)
    (hp1 : env1.persistError = none)
    (he2 : truthyOpt inp2.error = false) (hs2 : truthyOpt inp2.state = true)
    (hv2 : consumeState t1 (inp2.state.getD ("")) = (ValidationResult.Valid, t2x))
    (hac2 : actualCode inp2.auth_code inp2.code ≠ (""))
    (hx2 : exchangeResult env2.response = ExchangeResult.Success tok2 body2)
    (hp2 : env2.persistError = none)
    (hts : env1.timestamp ≠ env2.timestamp) :
    alookup (callback cfg inp2 (callback cfg inp1 states1 store env1).states
        (callback cfg inp1 states1 store env1).tokenStore env2).tokenStore
      (tokenFilename env1.timestamp) = some body1 ∧
    alookup (callback cfg inp2 (callback cfg inp1 states1 store env1).states
        (callback cfg inp1 states1 store env1).tokenStore env2).tokenStore
      (tokenFilename env2.timestamp) = some body2 := by
  have h1s : (callback cfg inp1 states1 store env1).states = t1 := by
    simp [callback, he1, hs1, hv1, hac1, hx1, hp1]
  have h1t : (callback cfg inp1 states1 store env1).tokenStore =
      ainsert store (tokenFilename env1.timestamp) body1 := by
    simp [callback, he1, hs1, hv1, hac1, hx1, hp1]
  have h2t : (callback cfg inp2 (callback cfg inp1 states1 store env1).states
      (callback cfg inp1 states1 store env1).tokenStore env2).tokenStore =
      ainsert (ainsert store (tokenFilename env1.timestamp) body1)
        (tokenFilename env2.timestamp) body2 := by
    rw [h1s, h1t]
    simp [callback, he2, hs2, hv2, hac2, hx2, hp2]
  rw [h2t]
  have hfn : tokenFilename env1.timestamp ≠ tokenFilename env2.timestamp :=
    fun hEq => hts (tokenFilename_inj _ _ hEq)
  constructor
  · rw [alookup_ainsert_other _ _ _ _ hfn]
    exact alookup_ainsert_self store _ body1
  · exact alookup_ainsert_self _ _ body2

/-- Environment for a second exchange one second later, returning `TOK2`. -/
def exEnvOk3 : CallbackEnv :=
  { response := { status_code := 200, body := exOkBody2 }, persistError := none,
    timestamp := ("20250101_000001"), year := 2025 }

/-- C9 witness: the amended claim on two successful exchanges with
distinct timestamps. -/
theorem c9_witness :
    (truthyOpt exInpOk.error = false ∧ truthyOpt exInpOk.state = true ∧
     consumeState exStates2 (exInpOk.state.getD ("")) = (ValidationResult.Valid, [(("sid2"), exPs2)]) ∧
     actualCode exInpOk.auth_code exInpOk.code ≠ ("") ∧
     exchangeResult exEnvOk.response = ExchangeResult.Success (("TOK1")) exOkBody ∧
     exEnvOk.persistError = none ∧
     truthyOpt exInpOk2.error = false ∧ truthyOpt exInpOk2.state = true ∧
     consumeState [(("sid2"), exPs2)] (exInpOk2.state.getD ("")) = (ValidationResult.Valid, (([]))) ∧
     actualCode exInpOk2.auth_code exInpOk2.code ≠ ("") ∧
     exchangeResult exEnvOk3.response = ExchangeResult.Success (("TOK2")) exOkBody2 ∧
     exEnvOk3.persistError = none ∧
     exEnvOk.timestamp ≠ exEnvOk3.timestamp) ∧
    (alookup (callback exCfg exInpOk2 (callback exCfg exInpOk exStates2 (([])) exEnvOk).states
        (callback exCfg exInpOk exStates2 (([])) exEnvOk).tokenStore exEnvOk3).tokenStore
      (tokenFilename exEnvOk.timestamp) = some exOkBody ∧
     alookup (callback exCfg exInpOk2 (callback exCfg exInpOk exStates2 (([])) exEnvOk).states
        (callback exCfg exInpOk exStates2 (([])) exEnvOk).tokenStore exEnvOk3).tokenStore
      (tokenFilename exEnvOk3.timestamp) = some exOkBody2) :=
  ⟨⟨by decide, by decide, by decide, by decide, by decide, by decide, by decide, by decide,
    by decide, by decide, by decide, by decide, by decide⟩,
   c9_theorem exCfg exInpOk exInpOk2 exStates2 [(("sid2"), exPs2)] (([])) (([])) exEnvOk exEnvOk3
     (("TOK1")) (("TOK2")) exOkBody exOkBody2
     (by decide) (by decide) (by decide) (by decide) (by decide) (by decide)
     (by decide) (by decide) (by decide) (by decide) (by decide) (by decide) (by decide)⟩

end FyersOAuth
